import Mathlib

/-!
Shallow embedding of the Focus Buddy session-tracking core
(`src/core/session_tracker.py` together with the constants it imports from
`src/utils/config.py`).

Modelling conventions:
* Wall-clock timestamps are rationals (`ℚ`), in seconds.  The Python code
  reads the clock through both `time.time()` and `datetime.now()`; within a
  single operation all clock reads are identified and passed in as one
  explicit `now` argument.  ISO-8601 serialization of timestamps
  (`isoformat` / `fromisoformat`) is a bijection and is elided: period
  boundaries and check-in timestamps are stored directly as rationals.
* Python's float arithmetic on durations and scores is modelled exactly over
  `ℚ`; `round` is banker's rounding (`pyRound`), `int()` is truncation
  toward zero (`pyTrunc`), mirroring Python semantics.
* The session directory on disk is modelled by `Store`, a map from session
  id to the optional persisted `session.json` document; `_save_session_data`
  is `store_write` at the tracker's id.
* Display-only string formatting (the `str(timedelta(...))` renderings and
  one-decimal percentage in `_generate_summary`) is abstracted to `toString`
  of the exact rational values; no claim concerns the summary text.
-/

/-- Python `round` on an exact rational: round-half-to-even (banker's
rounding), as Python's builtin behaves on floats. -/
def pyRound (q : ℚ) : ℤ :=
  let f := ⌊q⌋
  let r := q - (f : ℚ)
  if r < 1/2 then f
  else if 1/2 < r then f + 1
  else if f % 2 = 0 then f else f + 1

/-- Python `int()` applied to a nonnegative-or-negative rational: truncation
toward zero. -/
def pyTrunc (q : ℚ) : ℤ := if 0 ≤ q then ⌊q⌋ else -⌊-q⌋

/-- From `src/utils/config.py`: `DEFAULT_SESSION_DURATION = 120 * 60`. -/
def DEFAULT_SESSION_DURATION : ℚ := 120 * 60

/-- From `src/utils/config.py`: `CHECK_IN_INTERVAL = 120`. -/
def CHECK_IN_INTERVAL : ℚ := 120

/-- A focus or distraction period as persisted in `session.json`:
`{"start": ..., "end": ..., "duration": ...}`.  The `end` key is called
`stop` here because `end` is a reserved word. -/
structure Period where
  start : ℚ
  stop : ℚ
  duration : ℚ
deriving DecidableEq

/-- A check-in record (`check_in_data` dict).  The `timestamp` key may be
absent (`none`) on input; `add_check_in` stamps it. -/
structure CheckIn where
  timestamp : Option ℚ
  question : String
  response : String
deriving DecidableEq

/-- A screen-analysis payload (`analysis_data` dict).  `is_productive` may be
absent; the code reads it as `analysis_data.get("is_productive", False)`. -/
structure AnalysisData where
  content : String
  is_productive : Option Bool
deriving DecidableEq

/-- The `self.session_data` dict, i.e. the persisted `session.json`
document. -/
structure SessionData where
  session_id : String
  start_time : ℚ
  end_time : Option ℚ
  duration : ℚ
  status : String
  productivity_score : ℤ
  focus_periods : List Period
  distraction_periods : List Period
  check_ins : List CheckIn
  summary : String
  tags : List String
  notes : String
deriving DecidableEq

/-- The in-memory `SessionTracker` state: the document plus the transient
fields set up in `__init__`. -/
structure SessionTracker where
  session_data : SessionData
  last_check_in_time : ℚ
  last_activity_time : ℚ
  current_focus_period_start : ℚ
  is_currently_focused : Bool
  total_focus_time : ℚ
  total_distraction_time : ℚ
deriving DecidableEq

/-- The session-logs directory: one optional `session.json` document per
session id. -/
def Store : Type := String → Option SessionData

/-- A store with no persisted sessions. -/
def empty_store : Store := fun _ => none

/-- `_save_session_data`: overwrite the document stored under `id`. -/
def store_write (store : Store) (id : String) (doc : SessionData) : Store :=
  fun j => if j = id then some doc else store j

/-- The fresh `self.session_data` dict built in `SessionTracker.__init__`. -/
def init_session_data (session_id : String) (now : ℚ) : SessionData :=
  { session_id := session_id
    start_time := now
    end_time := none
    duration := 0
    status := "active"
    productivity_score := 0
    focus_periods := []
    distraction_periods := []
    check_ins := []
    summary := ""
    tags := []
    notes := "" }

/-- The in-memory state produced by `SessionTracker.__init__` (before the
initial save): all clocks set to `now`, currently focused, zero totals. -/
def init_tracker (session_id : String) (now : ℚ) : SessionTracker :=
  { session_data := init_session_data session_id now
    last_check_in_time := now
    last_activity_time := now
    current_focus_period_start := now
    is_currently_focused := true
    total_focus_time := 0
    total_distraction_time := 0 }

/-- `SessionTracker.__init__` including its unconditional
`self._save_session_data()`: returns the tracker and the store after the
initial save (which overwrites any document already stored under the id). -/
def open_session (store : Store) (session_id : String) (now : ℚ) :
    SessionTracker × Store :=
  let t := init_tracker session_id now
  (t, store_write store session_id t.session_data)

/-- `SessionTracker._update_productivity_score`: when
`total_focus_time + total_distraction_time > 0`, set
`productivity_score := round((focus/total)*100 * min(1, duration/DEFAULT))`;
otherwise leave the score untouched. -/
def update_productivity_score (s : SessionTracker) : SessionTracker :=
  let total_time := s.total_focus_time + s.total_distraction_time
  if 0 < total_time then
    let base_score := s.total_focus_time / total_time * 100
    let duration_factor := min 1 (s.session_data.duration / DEFAULT_SESSION_DURATION)
    let score := base_score * duration_factor
    { s with session_data :=
        { s.session_data with productivity_score := pyRound score } }
  else s

/-- The state-update part of `SessionTracker.add_screen_analysis` (after the
archive write, before the save): close/flip the open period on a
productivity change, refresh `last_activity_time`, recompute the score. -/
def add_screen_analysis (s : SessionTracker) (d : AnalysisData) (now : ℚ) :
    SessionTracker :=
  let is_productive := d.is_productive.getD false
  let s1 :=
    if is_productive ≠ s.is_currently_focused then
      if s.is_currently_focused then
        let focus_duration := now - s.current_focus_period_start
        { s with
          total_focus_time := s.total_focus_time + focus_duration
          session_data :=
            { s.session_data with
              focus_periods := s.session_data.focus_periods ++
                [⟨s.current_focus_period_start, now, focus_duration⟩] }
          current_focus_period_start := now
          is_currently_focused := is_productive }
      else
        let distraction_duration := now - s.current_focus_period_start
        { s with
          total_distraction_time := s.total_distraction_time + distraction_duration
          session_data :=
            { s.session_data with
              distraction_periods := s.session_data.distraction_periods ++
                [⟨s.current_focus_period_start, now, distraction_duration⟩] }
          current_focus_period_start := now
          is_currently_focused := is_productive }
    else s
  update_productivity_score { s1 with last_activity_time := now }

/-- `SessionTracker.add_screen_analysis` including the archive write that
precedes the state update and the save that follows it.  The archive write
(`analysis_<timestamp>.json`) has no exception handler in the source, so a
failing write (`archive_ok = false`) propagates before any state mutation. -/
def add_screen_analysis_io (archive_ok : Bool) (store : Store)
    (s : SessionTracker) (d : AnalysisData) (now : ℚ) :
    Except String (SessionTracker × Store) :=
  if archive_ok then
    let s1 := add_screen_analysis s d now
    Except.ok (s1, store_write store s1.session_data.session_id s1.session_data)
  else Except.error "archive write failed"

/-- The timestamp-stamping step of `add_check_in`: insert `now` as the
timestamp when the record has none, otherwise keep the record as is. -/
def stamp_check_in (c : CheckIn) (now : ℚ) : CheckIn :=
  match c.timestamp with
  | none => { c with timestamp := some now }
  | some _ => c

/-- `SessionTracker.add_check_in`: stamp, append, refresh
`last_check_in_time`. -/
def add_check_in (s : SessionTracker) (c : CheckIn) (now : ℚ) : SessionTracker :=
  { s with
    session_data :=
      { s.session_data with
        check_ins := s.session_data.check_ins ++ [stamp_check_in c now] }
    last_check_in_time := now }

/-- `SessionTracker.add_tag`: append only when the tag is not already
present (the save inside the guard is elided here; no claim involves it). -/
def add_tag (s : SessionTracker) (tag : String) : SessionTracker :=
  if tag ∈ s.session_data.tags then s
  else
    { s with session_data :=
        { s.session_data with tags := s.session_data.tags ++ [tag] } }

/-- The metrics dict returned by `get_productivity_metrics` (the redundant
`*_formatted` display strings are elided). -/
structure ProductivityMetrics where
  session_id : String
  duration_seconds : ℚ
  focus_time_seconds : ℚ
  distraction_time_seconds : ℚ
  focus_percentage : ℚ
  productivity_score : ℤ
  check_in_count : ℕ
  check_in_compliance : ℚ
deriving DecidableEq

/-- `SessionTracker.get_productivity_metrics`: duration from `end_time` (or
`now` while active), focus percentage over `max(total, 1)`, and compliance
`min(100, actual/expected * 100)` with
`expected = max(1, int(duration / CHECK_IN_INTERVAL))`. -/
def get_productivity_metrics (s : SessionTracker) (now : ℚ) : ProductivityMetrics :=
  let end_t := match s.session_data.end_time with
    | some e => e
    | none => now
  let duration_seconds := end_t - s.session_data.start_time
  let total_time := s.total_focus_time + s.total_distraction_time
  let focus_percentage := s.total_focus_time / max total_time 1 * 100
  let expected_check_ins : ℤ := max 1 (pyTrunc (duration_seconds / CHECK_IN_INTERVAL))
  let actual_check_ins := s.session_data.check_ins.length
  let check_in_compliance :=
    min 100 ((actual_check_ins : ℚ) / (expected_check_ins : ℚ) * 100)
  { session_id := s.session_data.session_id
    duration_seconds := duration_seconds
    focus_time_seconds := s.total_focus_time
    distraction_time_seconds := s.total_distraction_time
    focus_percentage := focus_percentage
    productivity_score := s.session_data.productivity_score
    check_in_count := actual_check_ins
    check_in_compliance := check_in_compliance }

/-- `SessionTracker._generate_summary`, with the display formatting of
numbers abstracted to `toString` of the exact values. -/
def generate_summary (s : SessionTracker) (now : ℚ) : String :=
  let m := get_productivity_metrics s now
  let base :=
    "Focus session completed with a productivity score of " ++
    toString m.productivity_score ++ "/100. " ++
    "Duration: " ++ toString m.duration_seconds ++ ". " ++
    "Time spent focused: " ++ toString m.focus_time_seconds ++
    " (" ++ toString m.focus_percentage ++ "%). "
  if s.session_data.tags ≠ [] then
    base ++ "Tags: " ++ String.intercalate ", " s.session_data.tags ++ "."
  else base

/-- `SessionTracker.end_session`: set `end_time` and `duration`, close the
open period as of `now`, recompute the score, set the summary (caller's or
generated), mark the session `completed`.  The source performs no status
check before doing any of this. -/
def end_session (s : SessionTracker) (summary : Option String) (now : ℚ) :
    SessionTracker :=
  let s0 := { s with session_data :=
      { s.session_data with
        end_time := some now
        duration := now - s.session_data.start_time } }
  let s1 :=
    if s0.is_currently_focused then
      let focus_duration := now - s0.current_focus_period_start
      { s0 with
        total_focus_time := s0.total_focus_time + focus_duration
        session_data :=
          { s0.session_data with
            focus_periods := s0.session_data.focus_periods ++
              [⟨s0.current_focus_period_start, now, focus_duration⟩] } }
    else
      let distraction_duration := now - s0.current_focus_period_start
      { s0 with
        total_distraction_time := s0.total_distraction_time + distraction_duration
        session_data :=
          { s0.session_data with
            distraction_periods := s0.session_data.distraction_periods ++
              [⟨s0.current_focus_period_start, now, distraction_duration⟩] } }
  let s2 := update_productivity_score s1
  let summary_text := match summary with
    | some t => t
    | none => generate_summary s2 now
  { s2 with session_data :=
      { s2.session_data with
        summary := summary_text
        status := "completed" } }

/-- `load_session` as written in the source: after the existence check it
constructs `SessionTracker(session_id)` — whose `__init__` saves fresh
initial data, overwriting the stored document — then reads the document
back, recomputes the totals by summing `end - start` over the persisted
periods, infers `is_currently_focused` from the later of the two last
period ends (when both sequences are nonempty), and restores
`last_check_in_time` from the last check-in.  A last check-in with no
timestamp key raises `KeyError`, which the blanket handler turns into
`None`. -/
def load_session (store : Store) (session_id : String) (now : ℚ) :
    Option (SessionTracker × Store) :=
  match store session_id with
  | none => none
  | some _ =>
    let p := open_session store session_id now
    let store1 := p.2
    match store1 session_id with
    | none => none
    | some doc =>
      let tr1 := { p.1 with session_data := doc }
      let total_focus := (doc.focus_periods.map (fun q => q.stop - q.start)).sum
      let total_distraction :=
        (doc.distraction_periods.map (fun q => q.stop - q.start)).sum
      let focused :=
        match doc.focus_periods.getLast?, doc.distraction_periods.getLast? with
        | some pf, some pd => decide (pd.stop < pf.stop)
        | _, _ => tr1.is_currently_focused
      let tr2 := { tr1 with
        total_focus_time := total_focus
        total_distraction_time := total_distraction
        is_currently_focused := focused
        last_activity_time := now }
      match doc.check_ins.getLast? with
      | some c =>
        match c.timestamp with
        | none => none
        | some ts => some ({ tr2 with last_check_in_time := ts }, store1)
      | none => some ({ tr2 with last_check_in_time := now }, store1)

/-- Replay a chronological list of `(is_productive, timestamp)`
classification events through `add_screen_analysis`. -/
def run_events (s : SessionTracker) : List (Bool × ℚ) → SessionTracker
  | [] => s
  | e :: rest => run_events (add_screen_analysis s ⟨"", some e.1⟩ e.2) rest

/-- All event timestamps are at most `b`. -/
def times_ub (l : List (Bool × ℚ)) (b : ℚ) : Bool :=
  l.all fun e => decide (e.2 ≤ b)

/-- Total of the persisted `duration` fields of a period list. -/
def sum_durations (l : List Period) : ℚ :=
  (l.map Period.duration).sum

/-! ### Projection lemmas

`_update_productivity_score` writes only the `productivity_score` field; these
record that every other component of the state passes through unchanged. -/

@[simp] lemma ups_focus_periods (s : SessionTracker) :
    (update_productivity_score s).session_data.focus_periods =
      s.session_data.focus_periods := by
  simp only [update_productivity_score]; split <;> rfl

@[simp] lemma ups_distraction_periods (s : SessionTracker) :
    (update_productivity_score s).session_data.distraction_periods =
      s.session_data.distraction_periods := by
  simp only [update_productivity_score]; split <;> rfl

@[simp] lemma ups_current_focus_period_start (s : SessionTracker) :
    (update_productivity_score s).current_focus_period_start =
      s.current_focus_period_start := by
  simp only [update_productivity_score]; split <;> rfl

@[simp] lemma ups_start_time (s : SessionTracker) :
    (update_productivity_score s).session_data.start_time =
      s.session_data.start_time := by
  simp only [update_productivity_score]; split <;> rfl

@[simp] lemma ups_end_time (s : SessionTracker) :
    (update_productivity_score s).session_data.end_time =
      s.session_data.end_time := by
  simp only [update_productivity_score]; split <;> rfl

@[simp] lemma ups_duration (s : SessionTracker) :
    (update_productivity_score s).session_data.duration =
      s.session_data.duration := by
  simp only [update_productivity_score]; split <;> rfl

@[simp] lemma ups_is_currently_focused (s : SessionTracker) :
    (update_productivity_score s).is_currently_focused =
      s.is_currently_focused := by
  simp only [update_productivity_score]; split <;> rfl

@[simp] lemma ups_total_focus_time (s : SessionTracker) :
    (update_productivity_score s).total_focus_time = s.total_focus_time := by
  simp only [update_productivity_score]; split <;> rfl

@[simp] lemma ups_total_distraction_time (s : SessionTracker) :
    (update_productivity_score s).total_distraction_time =
      s.total_distraction_time := by
  simp only [update_productivity_score]; split <;> rfl

/-- The score written by `_update_productivity_score`, by cases on whether any
focus/distraction time has accumulated. -/
lemma ups_score (s : SessionTracker) :
    (update_productivity_score s).session_data.productivity_score =
      if 0 < s.total_focus_time + s.total_distraction_time then
        pyRound (s.total_focus_time /
            (s.total_focus_time + s.total_distraction_time) * 100 *
          min 1 (s.session_data.duration / DEFAULT_SESSION_DURATION))
      else s.session_data.productivity_score := by
  simp only [update_productivity_score]; split <;> rfl

/-- `end_session` always stamps the close time. -/
lemma end_session_end_time (s : SessionTracker) (summary : Option String) (now : ℚ) :
    (end_session s summary now).session_data.end_time = some now := by
  simp only [end_session]
  cases hf : s.is_currently_focused <;> simp [hf]

/-- `end_session` sets `duration` to the wall-clock span since `start_time`. -/
lemma end_session_duration (s : SessionTracker) (summary : Option String) (now : ℚ) :
    (end_session s summary now).session_data.duration =
      now - s.session_data.start_time := by
  simp only [end_session]
  cases hf : s.is_currently_focused <;> simp [hf]

/-- `end_session` always marks the session completed. -/
lemma end_session_status (s : SessionTracker) (summary : Option String) (now : ℚ) :
    (end_session s summary now).session_data.status = "completed" := by
  simp only [end_session]

/-- Closing while focused appends one focus period and leaves the
distraction periods alone. -/
lemma end_session_periods_focused (s : SessionTracker) (summary : Option String)
    (now : ℚ) (hf : s.is_currently_focused = true) :
    (end_session s summary now).session_data.focus_periods =
      s.session_data.focus_periods ++
        [⟨s.current_focus_period_start, now, now - s.current_focus_period_start⟩] ∧
    (end_session s summary now).session_data.distraction_periods =
      s.session_data.distraction_periods := by
  simp only [end_session]
  simp [hf]

/-- Closing while distracted appends one distraction period and leaves the
focus periods alone. -/
lemma end_session_periods_distracted (s : SessionTracker) (summary : Option String)
    (now : ℚ) (hf : s.is_currently_focused = false) :
    (end_session s summary now).session_data.distraction_periods =
      s.session_data.distraction_periods ++
        [⟨s.current_focus_period_start, now, now - s.current_focus_period_start⟩] ∧
    (end_session s summary now).session_data.focus_periods =
      s.session_data.focus_periods := by
  simp only [end_session]
  simp [hf]

/-! ### Claim theorems -/

/-- C7: re-adding a tag already present in the session's tag list is a no-op
(the whole tracker state, in particular the tag list's size and contents, is
unchanged and no error is raised — `add_tag` is total), and `add_tag`
preserves freedom from duplicates, so tag lists built by `add_tag` never
contain duplicate entries. -/
theorem add_tag_noop_and_nodup (s : SessionTracker) (tag : String) :
    (tag ∈ s.session_data.tags → add_tag s tag = s) ∧
    (s.session_data.tags.Nodup → ((add_tag s tag).session_data.tags).Nodup) := by
  constructor
  · intro h
    simp [add_tag, h]
  · intro h
    by_cases hm : tag ∈ s.session_data.tags
    · simpa [add_tag, hm] using h
    · simp [add_tag, hm, List.nodup_append, h]

/-- C7 witness: after adding the tag once, re-adding it leaves the tracker
unchanged, and the tag list stays duplicate-free. -/
theorem add_tag_noop_and_nodup_witness :
    "deep" ∈ (add_tag (init_tracker "s1" 0) "deep").session_data.tags ∧
    add_tag (add_tag (init_tracker "s1" 0) "deep") "deep" =
      add_tag (init_tracker "s1" 0) "deep" ∧
    ((add_tag (add_tag (init_tracker "s1" 0) "deep") "deep").session_data.tags).Nodup := by
  have hmem : "deep" ∈ (add_tag (init_tracker "s1" 0) "deep").session_data.tags := by
    simp [add_tag, init_tracker, init_session_data]
  have hnd : ((add_tag (init_tracker "s1" 0) "deep").session_data.tags).Nodup := by
    simp [add_tag, init_tracker, init_session_data]
  refine ⟨hmem, (add_tag_noop_and_nodup (add_tag (init_tracker "s1" 0) "deep") "deep").1 hmem, ?_⟩
  rw [(add_tag_noop_and_nodup (add_tag (init_tracker "s1" 0) "deep") "deep").1 hmem]
  exact hnd

/-- C8: loading a session id for which the store holds no document yields the
failure outcome `none` (the source logs the error and returns `None`, which
the caller receives — the operation neither yields a tracker nor aborts the
process). -/
theorem load_session_unknown_id (store : Store) (session_id : String) (now : ℚ)
    (h : store session_id = none) :
    load_session store session_id now = none := by
  simp only [load_session, h]

/-- C8 witness: loading an id from the empty store fails with `none`. -/
theorem load_session_unknown_id_witness :
    empty_store "20990101_000000" = none ∧
    load_session empty_store "20990101_000000" 5 = none :=
  ⟨rfl, load_session_unknown_id empty_store "20990101_000000" 5 rfl⟩

/-- C9 counterexample: with a failing archive write, `add_screen_analysis`
does not perform the state update or the save — the call errors out and
produces no updated tracker/store at all, contradicting the claim that the
state update still occurs. -/
theorem archive_failure_counterexample :
    add_screen_analysis_io false empty_store (init_tracker "s1" 0)
        ⟨"social media", some false⟩ 10 = Except.error "archive write failed" ∧
    (add_screen_analysis_io false empty_store (init_tracker "s1" 0)
        ⟨"social media", some false⟩ 10).toOption = none :=
  ⟨rfl, rfl⟩

/-- C9 amended: a failure while archiving the raw classification result is
fatal to `add_screen_analysis` — the write has no exception handler, so the
error propagates and the interval state update, score recomputation and
persistence are all skipped. -/
theorem archive_failure_amended (store : Store) (s : SessionTracker)
    (d : AnalysisData) (now : ℚ) :
    add_screen_analysis_io false store s d now =
      Except.error "archive write failed" := rfl

/-- C10: `add_check_in` appends exactly one record: a record lacking a
timestamp is stamped with the current time before being appended, a record
that already has one is appended unchanged, and hence a check-in list all of
whose entries carry timestamps keeps that property. -/
theorem add_check_in_stamps (s : SessionTracker) (c : CheckIn) (now : ℚ) :
    (add_check_in s c now).session_data.check_ins =
      s.session_data.check_ins ++ [stamp_check_in c now] ∧
    (c.timestamp = none → (stamp_check_in c now).timestamp = some now) ∧
    (∀ v, c.timestamp = some v → stamp_check_in c now = c) ∧
    ((∀ x ∈ s.session_data.check_ins, x.timestamp ≠ none) →
      ∀ x ∈ (add_check_in s c now).session_data.check_ins, x.timestamp ≠ none) := by
  refine ⟨rfl, ?_, ?_, ?_⟩
  · intro h
    simp [stamp_check_in, h]
  · intro v h
    simp [stamp_check_in, h]
  · intro hall x hx
    simp only [add_check_in, List.mem_append, List.mem_singleton] at hx
    rcases hx with hx | hx
    · exact hall x hx
    · subst hx
      cases hc : c.timestamp <;> simp [stamp_check_in, hc]

/-- C10 witness: a timestampless check-in gets stamped with the call time, a
timestamped one is kept verbatim, and the stamped record is appended. -/
theorem add_check_in_stamps_witness :
    (stamp_check_in ⟨none, "progress?", "good"⟩ 7).timestamp = some 7 ∧
    stamp_check_in ⟨some 5, "progress?", "good"⟩ 7 = ⟨some 5, "progress?", "good"⟩ ∧
    (add_check_in (init_tracker "s1" 0) ⟨none, "progress?", "good"⟩ 7).session_data.check_ins
      = [⟨some 7, "progress?", "good"⟩] :=
  ⟨(add_check_in_stamps (init_tracker "s1" 0) ⟨none, "progress?", "good"⟩ 7).2.1 rfl,
   (add_check_in_stamps (init_tracker "s1" 0) ⟨some 5, "progress?", "good"⟩ 7).2.2.1 5 rfl,
   by simp [add_check_in, init_tracker, init_session_data, stamp_check_in]⟩

/-- After clamping below by 1, Python's `int()` truncation of the expected
check-in count agrees with the floor the spec states (they differ only on
negative arguments, where both clamp to 1). -/
lemma max_one_pyTrunc (q : ℚ) : max 1 (pyTrunc q) = max 1 ⌊q⌋ := by
  unfold pyTrunc
  by_cases h : 0 ≤ q
  · rw [if_pos h]
  · rw [if_neg h]
    push_neg at h
    have h1 : ⌊q⌋ ≤ 0 := Int.floor_nonpos h.le
    have h2 : (0:ℤ) ≤ ⌊-q⌋ := Int.floor_nonneg.mpr (by linarith)
    rw [max_eq_left (by omega : -⌊-q⌋ ≤ 1), max_eq_left (by omega : ⌊q⌋ ≤ 1)]

/-- C6: the metrics operation returns
`checkInCompliance = min(100, 100 * actual / max(1, floor(duration / CHECK_IN_INTERVAL)))`,
and in particular the compliance value never exceeds 100, however many
check-ins occurred. -/
theorem check_in_compliance_formula (s : SessionTracker) (now : ℚ) :
    (get_productivity_metrics s now).check_in_compliance =
      min 100 (100 * ((get_productivity_metrics s now).check_in_count : ℚ) /
        ((max 1 ⌊(get_productivity_metrics s now).duration_seconds /
            CHECK_IN_INTERVAL⌋ : ℤ) : ℚ)) ∧
    (get_productivity_metrics s now).check_in_compliance ≤ 100 := by
  constructor
  · simp only [get_productivity_metrics]
    rw [max_one_pyTrunc]
    congr 1
    ring
  · simp only [get_productivity_metrics]
    exact min_le_left _ _

/-- C2: for a state with nonnegative accumulated totals whose score is 0
whenever no time has accumulated (both hold in every reachable state), the
recomputed productivity score is
`round(base * durationFactor)` with `base = 100 * focus / (focus + distraction)`
(`0` when both totals are `0`) and
`durationFactor = min(1, duration / DEFAULT_SESSION_DURATION)`. -/
theorem productivity_score_formula (s : SessionTracker)
    (hf : 0 ≤ s.total_focus_time) (hd : 0 ≤ s.total_distraction_time)
    (h0 : s.total_focus_time + s.total_distraction_time = 0 →
      s.session_data.productivity_score = 0) :
    (update_productivity_score s).session_data.productivity_score =
      pyRound ((if s.total_focus_time + s.total_distraction_time = 0 then 0
          else 100 * s.total_focus_time /
            (s.total_focus_time + s.total_distraction_time)) *
        min 1 (s.session_data.duration / DEFAULT_SESSION_DURATION)) := by
  rw [ups_score]
  by_cases h : s.total_focus_time + s.total_distraction_time = 0
  · rw [if_neg (by rw [h]; exact lt_irrefl 0), if_pos h, h0 h]
    norm_num [pyRound]
  · have hpos : 0 < s.total_focus_time + s.total_distraction_time :=
      lt_of_le_of_ne (add_nonneg hf hd) (Ne.symm h)
    rw [if_pos hpos, if_neg h]
    congr 1
    ring

/-- The state reached inside `end_session` for the claim's scenario — a
session fully focused for 60 seconds, just closed — at the point where the
final score recomputation runs. -/
def c2_state : SessionTracker :=
  { init_tracker "s1" 0 with
    session_data := { init_session_data "s1" 0 with end_time := some 60, duration := 60 }
    total_focus_time := 60 }

/-- C2 witness: with `DEFAULT_SESSION_DURATION = 7200`, a session closed
after 60 fully-focused seconds scores `round(100 * 60/7200) = round(0.833..) = 1`
— both through the formula theorem and through `end_session` itself. -/
theorem productivity_score_formula_witness :
    (update_productivity_score c2_state).session_data.productivity_score = 1 ∧
    (end_session (init_tracker "s1" 0) none 60).session_data.productivity_score = 1 := by
  constructor
  · have h := productivity_score_formula c2_state
      (by norm_num [c2_state, init_tracker])
      (by norm_num [c2_state, init_tracker])
      (by intro hh; exact absurd hh (by norm_num [c2_state, init_tracker]))
    rw [h]
    norm_num [c2_state, init_tracker, init_session_data, pyRound, DEFAULT_SESSION_DURATION]
  · norm_num [end_session, init_tracker, init_session_data, update_productivity_score,
      pyRound, DEFAULT_SESSION_DURATION]

/-- C4: recording a classification whose verdict differs from
`is_currently_focused` closes the open interval at the recording time —
appending it to the sequence of its kind and adding its duration to the
matching running total — then flips `is_currently_focused` and starts a new
interval at that time; recording a verdict equal to the current state
appends no interval and leaves both interval sequences (and the open
interval) unchanged. -/
theorem classification_transition (s : SessionTracker) (d : AnalysisData) (now : ℚ) :
    (d.is_productive.getD false ≠ s.is_currently_focused →
      ((s.is_currently_focused = true →
        (add_screen_analysis s d now).session_data.focus_periods =
          s.session_data.focus_periods ++
            [⟨s.current_focus_period_start, now, now - s.current_focus_period_start⟩] ∧
        (add_screen_analysis s d now).session_data.distraction_periods =
          s.session_data.distraction_periods ∧
        (add_screen_analysis s d now).total_focus_time =
          s.total_focus_time + (now - s.current_focus_period_start) ∧
        (add_screen_analysis s d now).total_distraction_time =
          s.total_distraction_time) ∧
      (s.is_currently_focused = false →
        (add_screen_analysis s d now).session_data.distraction_periods =
          s.session_data.distraction_periods ++
            [⟨s.current_focus_period_start, now, now - s.current_focus_period_start⟩] ∧
        (add_screen_analysis s d now).session_data.focus_periods =
          s.session_data.focus_periods ∧
        (add_screen_analysis s d now).total_distraction_time =
          s.total_distraction_time + (now - s.current_focus_period_start) ∧
        (add_screen_analysis s d now).total_focus_time = s.total_focus_time) ∧
      (add_screen_analysis s d now).is_currently_focused =
        d.is_productive.getD false ∧
      (add_screen_analysis s d now).current_focus_period_start = now)) ∧
    (d.is_productive.getD false = s.is_currently_focused →
      ((add_screen_analysis s d now).session_data.focus_periods =
        s.session_data.focus_periods ∧
      (add_screen_analysis s d now).session_data.distraction_periods =
        s.session_data.distraction_periods ∧
      (add_screen_analysis s d now).is_currently_focused =
        s.is_currently_focused ∧
      (add_screen_analysis s d now).current_focus_period_start =
        s.current_focus_period_start ∧
      (add_screen_analysis s d now).total_focus_time = s.total_focus_time ∧
      (add_screen_analysis s d now).total_distraction_time =
        s.total_distraction_time)) := by
  constructor
  · intro hp
    refine ⟨?_, ?_, ?_, ?_⟩
    · intro hf
      have hv : d.is_productive.getD false = false := by
        cases h2 : d.is_productive.getD false <;> simp_all
      simp [add_screen_analysis, hf, hv]
    · intro hf
      have hv : d.is_productive.getD false = true := by
        cases h2 : d.is_productive.getD false <;> simp_all
      simp [add_screen_analysis, hf, hv]
    · cases hf : s.is_currently_focused
      · have hv : d.is_productive.getD false = true := by
          cases h2 : d.is_productive.getD false <;> simp_all
        simp [add_screen_analysis, hf, hv]
      · have hv : d.is_productive.getD false = false := by
          cases h2 : d.is_productive.getD false <;> simp_all
        simp [add_screen_analysis, hf, hv]
    · cases hf : s.is_currently_focused
      · have hv : d.is_productive.getD false = true := by
          cases h2 : d.is_productive.getD false <;> simp_all
        simp [add_screen_analysis, hf, hv]
      · have hv : d.is_productive.getD false = false := by
          cases h2 : d.is_productive.getD false <;> simp_all
        simp [add_screen_analysis, hf, hv]
  · intro hp
    simp [add_screen_analysis, hp]

/-- C4 witness: from the fresh (focused) state, a non-productive verdict at
time 10 closes the initial focus interval `[0,10]`, flips to distracted and
reopens at 10; a productive verdict appends nothing and keeps the open
interval. -/
theorem classification_transition_witness :
    ((add_screen_analysis (init_tracker "s1" 0) ⟨"browsing", some false⟩ 10).is_currently_focused = false ∧
     (add_screen_analysis (init_tracker "s1" 0) ⟨"browsing", some false⟩ 10).current_focus_period_start = 10 ∧
     (add_screen_analysis (init_tracker "s1" 0) ⟨"browsing", some false⟩ 10).session_data.focus_periods =
       (init_tracker "s1" 0).session_data.focus_periods ++
         [⟨(init_tracker "s1" 0).current_focus_period_start, 10,
           10 - (init_tracker "s1" 0).current_focus_period_start⟩]) ∧
    ((add_screen_analysis (init_tracker "s1" 0) ⟨"coding", some true⟩ 10).session_data.focus_periods =
       (init_tracker "s1" 0).session_data.focus_periods ∧
     (add_screen_analysis (init_tracker "s1" 0) ⟨"coding", some true⟩ 10).current_focus_period_start =
       (init_tracker "s1" 0).current_focus_period_start) := by
  have h1 := (classification_transition (init_tracker "s1" 0) ⟨"browsing", some false⟩ 10).1
    (by simp [init_tracker])
  have h2 := (classification_transition (init_tracker "s1" 0) ⟨"coding", some true⟩ 10).2
    (by simp [init_tracker])
  refine ⟨⟨?_, h1.2.2.2, ?_⟩, h2.1, h2.2.2.2.1⟩
  · simpa using h1.2.2.1
  · exact (h1.1 rfl).1

/-- A session that has already been closed once: completed status, one
closing focus interval appended at time 60. -/
def c3_completed : SessionTracker := end_session (init_tracker "s1" 0) none 60

/-- C3 counterexample: calling `end_session` on an already-completed session
does not fail — there is no status guard and no error path — and it does not
leave the state unchanged: it succeeds, restamping `end_time` and mutating
the session. -/
theorem close_completed_counterexample :
    c3_completed.session_data.status = "completed" ∧
    (end_session c3_completed none 100).session_data.end_time = some 100 ∧
    end_session c3_completed none 100 ≠ c3_completed := by
  refine ⟨end_session_status _ _ _, end_session_end_time _ _ _, ?_⟩
  intro h
  have h2 := congrArg (fun t => t.session_data.end_time) h
  simp only at h2
  rw [end_session_end_time,
    show c3_completed.session_data.end_time = some 60 from end_session_end_time _ _ _] at h2
  exact absurd (Option.some.inj h2) (by norm_num)

/-- C3 amended: `end_session` performs no status check: invoked on an
already-completed session it succeeds (no `InvalidStateError` exists in the
code), restamps `end_time` and `duration`, appends one more closing
interval, and leaves the status `completed`. -/
theorem close_completed_amended (s : SessionTracker) (now : ℚ)
    (_h : s.session_data.status = "completed") :
    (end_session s none now).session_data.status = "completed" ∧
    (end_session s none now).session_data.end_time = some now ∧
    (end_session s none now).session_data.duration = now - s.session_data.start_time ∧
    (end_session s none now).session_data.focus_periods.length +
        (end_session s none now).session_data.distraction_periods.length =
      s.session_data.focus_periods.length +
        s.session_data.distraction_periods.length + 1 := by
  refine ⟨end_session_status _ _ _, end_session_end_time _ _ _,
    end_session_duration _ _ _, ?_⟩
  cases hf : s.is_currently_focused
  · obtain ⟨h1, h2⟩ := end_session_periods_distracted s none now hf
    rw [h1, h2]
    simp [List.length_append]
    omega
  · obtain ⟨h1, h2⟩ := end_session_periods_focused s none now hf
    rw [h1, h2]
    simp [List.length_append]
    omega

/-- C3 amended witness: double-closing the concrete completed session at
time 100 succeeds and appends a second closing interval. -/
theorem close_completed_amended_witness :
    (end_session c3_completed none 100).session_data.status = "completed" ∧
    (end_session c3_completed none 100).session_data.end_time = some 100 ∧
    (end_session c3_completed none 100).session_data.duration =
      100 - c3_completed.session_data.start_time ∧
    (end_session c3_completed none 100).session_data.focus_periods.length +
        (end_session c3_completed none 100).session_data.distraction_periods.length =
      c3_completed.session_data.focus_periods.length +
        c3_completed.session_data.distraction_periods.length + 1 :=
  close_completed_amended c3_completed 100 (end_session_status _ _ _)

/-- A stored, unmodified completed session: one focus interval `[0,40]`, one
tag and a note, persisted under id `s1`. -/
def c1_doc : SessionData :=
  { init_session_data "s1" 0 with
    end_time := some 40
    duration := 40
    status := "completed"
    focus_periods := [⟨0, 40, 40⟩]
    tags := ["deep-work"]
    notes := "stored note" }

/-- A store holding exactly the session document `c1_doc` under id `s1`. -/
def c1_store : Store := store_write empty_store "s1" c1_doc

/-- C1 failing-input theorem: loading the stored session `s1` at time 100
does not reconstruct it.  `SessionTracker.__init__` inside `load_session`
saves fresh initial data before the file is read back, so the loaded tracker
comes back with empty intervals/tags/notes and `total_focus_time = 0`
(instead of the stored 40-second interval), and the store itself now holds
the fresh initial document instead of the stored one — `load` both modifies
the stored state and loses the persisted intervals, tags and notes. -/
theorem load_session_clobbers :
    (load_session c1_store "s1" 100).map
        (fun p => (p.1.session_data.focus_periods, p.1.session_data.tags,
          p.1.session_data.notes, p.1.total_focus_time, p.2 "s1"))
      = some ([], [], "", 0, some (init_session_data "s1" 100)) ∧
    c1_doc.focus_periods ≠ [] ∧ c1_doc.tags ≠ [] ∧ c1_doc.notes ≠ "" ∧
    init_session_data "s1" 100 ≠ c1_doc := by
  refine ⟨?_, by simp [c1_doc], by simp [c1_doc], by simp [c1_doc], ?_⟩
  · simp [load_session, open_session, init_tracker, c1_store, c1_doc,
      store_write, empty_store, init_session_data]
  · intro h
    have h2 := congrArg SessionData.status h
    simp [init_session_data, c1_doc] at h2

/-- Appending one period adds its `duration` field to the running total of
persisted durations. -/
lemma sum_durations_append (l : List Period) (p : Period) :
    sum_durations (l ++ [p]) = sum_durations l + p.duration := by
  simp [sum_durations]

/-- The tiling invariant: the persisted focus and distraction durations sum
exactly to the span from the session start to the start of the currently
open period. -/
def Tiled (s : SessionTracker) : Prop :=
  sum_durations s.session_data.focus_periods +
      sum_durations s.session_data.distraction_periods =
    s.current_focus_period_start - s.session_data.start_time

/-- A fresh tracker satisfies the tiling invariant (no periods, open period
starts at the session start). -/
lemma tiled_init (id : String) (t0 : ℚ) : Tiled (init_tracker id t0) := by
  simp [Tiled, init_tracker, init_session_data, sum_durations]

/-- `add_screen_analysis` never changes the recorded session start. -/
lemma asa_start_time (s : SessionTracker) (d : AnalysisData) (now : ℚ) :
    (add_screen_analysis s d now).session_data.start_time =
      s.session_data.start_time := by
  simp only [add_screen_analysis, ups_start_time]
  split
  · split <;> rfl
  · rfl

/-- After `add_screen_analysis` the open period starts either at the event
time (state change) or where it started before (no change). -/
lemma asa_cur_cases (s : SessionTracker) (d : AnalysisData) (now : ℚ) :
    (add_screen_analysis s d now).current_focus_period_start = now ∨
    (add_screen_analysis s d now).current_focus_period_start =
      s.current_focus_period_start := by
  simp only [add_screen_analysis, ups_current_focus_period_start]
  split
  · split
    · left; rfl
    · left; rfl
  · right; rfl

/-- One classification event preserves the tiling invariant: a closed period
contributes exactly the span it covered, and the open period is re-anchored
at the event time. -/
lemma tiled_step (s : SessionTracker) (d : AnalysisData) (now : ℚ)
    (h : Tiled s) : Tiled (add_screen_analysis s d now) := by
  unfold Tiled at h ⊢
  by_cases hp : d.is_productive.getD false ≠ s.is_currently_focused
  · cases hf : s.is_currently_focused
    · have hv : d.is_productive.getD false = true := by
        cases h2 : d.is_productive.getD false <;> simp_all
      simp [add_screen_analysis, hf, hv, sum_durations_append]
      linarith
    · have hv : d.is_productive.getD false = false := by
        cases h2 : d.is_productive.getD false <;> simp_all
      simp [add_screen_analysis, hf, hv, sum_durations_append]
      linarith
  · simp only [not_not] at hp
    simpa [add_screen_analysis, hp] using h

/-- Replaying any event sequence preserves the tiling invariant. -/
lemma run_events_tiled (evs : List (Bool × ℚ)) :
    ∀ s, Tiled s → Tiled (run_events s evs) := by
  induction evs with
  | nil => intro s h; exact h
  | cons e rest ih => intro s h; exact ih _ (tiled_step _ _ _ h)

/-- Replaying events never changes the recorded session start. -/
lemma run_events_start_time (evs : List (Bool × ℚ)) :
    ∀ s, (run_events s evs).session_data.start_time =
      s.session_data.start_time := by
  induction evs with
  | nil => intro s; rfl
  | cons e rest ih => intro s; rw [run_events, ih, asa_start_time]

/-- If the open period starts below a bound and all event times respect the
bound, the open period still starts below the bound after the replay. -/
lemma run_events_cur_le (evs : List (Bool × ℚ)) :
    ∀ (s : SessionTracker) (b : ℚ), s.current_focus_period_start ≤ b →
      times_ub evs b = true →
      (run_events s evs).current_focus_period_start ≤ b := by
  induction evs with
  | nil => intro s b h _; exact h
  | cons e rest ih =>
    intro s b h hub
    simp only [times_ub, List.all_cons, Bool.and_eq_true, decide_eq_true_eq] at hub
    simp only [run_events]
    apply ih
    · rcases asa_cur_cases s ⟨"", some e.1⟩ e.2 with hc | hc
      · rw [hc]; exact hub.1
      · rw [hc]; exact h
    · simpa [times_ub] using hub.2

/-- C5: for every sequence of classification results (with event times at
most `now`) applied to a session opened at `t0 ≤ now`, the persisted focus
durations plus distraction durations are at most the wall-clock session
duration `now - t0` while the session is active, and after `end_session`
(which closes the open period) they equal the closed session's recorded
`duration` exactly. -/
theorem durations_tile_session (id : String) (t0 now : ℚ)
    (evs : List (Bool × ℚ)) (h0 : t0 ≤ now) (hub : times_ub evs now = true) :
    sum_durations (run_events (init_tracker id t0) evs).session_data.focus_periods +
        sum_durations (run_events (init_tracker id t0) evs).session_data.distraction_periods
      ≤ now - t0 ∧
    sum_durations (end_session (run_events (init_tracker id t0) evs) none now).session_data.focus_periods +
        sum_durations (end_session (run_events (init_tracker id t0) evs) none now).session_data.distraction_periods
      = (end_session (run_events (init_tracker id t0) evs) none now).session_data.duration := by
  have ht := run_events_tiled evs _ (tiled_init id t0)
  have hst : (run_events (init_tracker id t0) evs).session_data.start_time = t0 := by
    rw [run_events_start_time]; rfl
  have hcur : (run_events (init_tracker id t0) evs).current_focus_period_start ≤ now :=
    run_events_cur_le evs _ now h0 hub
  unfold Tiled at ht
  rw [hst] at ht
  constructor
  · rw [ht]; linarith
  · rw [end_session_duration, hst]
    cases hf : (run_events (init_tracker id t0) evs).is_currently_focused
    · obtain ⟨h1, h2⟩ := end_session_periods_distracted _ none now hf
      rw [h1, h2, sum_durations_append]
      simp only []
      linarith [ht]
    · obtain ⟨h1, h2⟩ := end_session_periods_focused _ none now hf
      rw [h1, h2, sum_durations_append]
      simp only []
      linarith [ht]

/-- C5 witness: a session opened at 0 with a distraction verdict at 10 and a
focus verdict at 20 keeps its durations below the elapsed 30 seconds while
active, and they equal the recorded duration after closing at 30. -/
theorem durations_tile_session_witness :
    ((0:ℚ) ≤ 30) ∧ times_ub [(false, 10), (true, 20)] 30 = true ∧
    sum_durations (run_events (init_tracker "s1" 0) [(false, 10), (true, 20)]).session_data.focus_periods +
        sum_durations (run_events (init_tracker "s1" 0) [(false, 10), (true, 20)]).session_data.distraction_periods
      ≤ 30 - 0 ∧
    sum_durations (end_session (run_events (init_tracker "s1" 0) [(false, 10), (true, 20)]) none 30).session_data.focus_periods +
        sum_durations (end_session (run_events (init_tracker "s1" 0) [(false, 10), (true, 20)]) none 30).session_data.distraction_periods
      = (end_session (run_events (init_tracker "s1" 0) [(false, 10), (true, 20)]) none 30).session_data.duration := by
  have h := durations_tile_session "s1" 0 30 [(false, 10), (true, 20)]
    (by norm_num) (by decide)
  exact ⟨by norm_num, by decide, h.1, h.2⟩
